import Mathlib

/-!
Verification of the Pod-Poster pipeline (`src/pod-poster.py`).

The program is a single linear pipeline: fetch an RSS feed, parse it,
select the N newest episode nodes, and for each selected episode
download / transcode / size-check / upload / clean up.  Strings are
modelled as `List Char`, machine integers as `Nat`/`Int` with Python
slice semantics made explicit, and the effectful steps (HTTP calls,
the audio encoder, the file system) as oracles whose outcomes drive
the same control flow as the source.
-/

namespace PodPoster

/-! ## Episode selection (`main`, lines 171-172)

`newest_episodes = all_episodes[:args.number]` followed by
`episodes_to_process = list(reversed(newest_episodes))`.
`pySlice` is Python's `xs[:n]` including the negative-index case:
for `n < 0` the stop index is `max(0, len(xs) + n)`. -/

def pySlice (n : Int) (xs : List α) : List α :=
  if 0 ≤ n then xs.take n.toNat else xs.take (xs.length - (-n).toNat)

def selectEpisodes (n : Int) (xs : List α) : List α :=
  (pySlice n xs).reverse

/-! ## `sanitize_filename` (lines 67-71)

`re.sub(r'[\\/*?:"<>|]', "", name)`, then `.replace(" ", "_")`,
then `[:230]`. -/

def illegalChars : List Char :=
  ['\\', '/', '*', '?', ':', '"', '<', '>', '|']

def sanitize_filename (name : List Char) : List Char :=
  let removed := name.filter (fun c => !(illegalChars.contains c))
  let underscored := removed.map (fun c => if c = ' ' then '_' else c)
  underscored.take 230

/-! ## Size gate (`process_episode`, lines 124-127)

`file_size_mb = os.path.getsize(compressed_file) / (1024 * 1024)` is an
exact real division for the byte counts at stake (they fit a double's
mantissa), so it is modelled over `ℚ`; the gate skips the upload when
`file_size_mb > max_size_mb` holds strictly. -/

def sizeGateSkips (sizeBytes maxSizeMb : Nat) : Bool :=
  decide ((sizeBytes : ℚ) / (1024 * 1024) > (maxSizeMb : ℚ))

/-- The dict `level_to_size = {1: 25, 2: 50, 3: 100}` (line 154); other keys raise. -/
def level_to_size (level : Nat) : Option Nat :=
  if level = 1 then some 25
  else if level = 2 then some 50
  else if level = 3 then some 100
  else none

/-! ## Description extraction (`process_episode`, lines 85-91)

`if description_tag:` is Python truthiness (None and the empty string
are falsy).  When the element is found and its text is truthy, the text
is stripped and, if the stripped text exceeds 1000 characters, cut to
1000 characters with `"..."` appended. -/

def pyTruthy (tag : Option (List Char)) : Bool :=
  match tag with
  | none => false
  | some t => !t.isEmpty

/-- Python whitespace for `str.strip()` (ASCII part; the texts we reason
about carry no exotic unicode whitespace). -/
def isPySpace (c : Char) : Bool :=
  c == ' ' || c == '\t' || c == '\n' || c == '\x0d' || c == '\x0b' || c == '\x0c'

def pyStrip (s : List Char) : List Char :=
  ((s.dropWhile isPySpace).reverse.dropWhile isPySpace).reverse

def ellipsisMark : List Char := ['.', '.', '.']

/-- Here `descrEl` is the result of `episode.find(description_tag)`:
`none` when no element matched, `some txt` when one did, where `txt` is
the element's `.text` (itself optional). -/
def extract_description (descriptionTag : Option (List Char))
    (descrEl : Option (Option (List Char))) : List Char :=
  if pyTruthy descriptionTag then
    let description :=
      match descrEl with
      | some (some t) => if t.isEmpty then [] else pyStrip t
      | _ => []
    if description.length > 1000 then description.take 1000 ++ ellipsisMark
    else description
  else []

/-! ## `send_to_discord` (lines 22-65)

An HTTP attempt either raises a transport exception (`none`) or yields a
response.  A response is its status code together with the result of
`response.json().get('retry_after', 1)`: `jsonRetryAfter = none` models a
body that is not JSON (so `.json()` raises), `some ra` a JSON body whose
optional `retry_after` field is `ra`. -/

structure HttpResponse where
  status : Nat
  jsonRetryAfter : Option (Option Nat)
deriving DecidableEq, Repr

structure SendOutcome where
  attempts : Nat
  sleeps : List Nat
  rewinds : Nat
  result : Option HttpResponse
deriving DecidableEq, Repr

/-- The publisher: initial POST; on a 429 response, read `retry_after`
(default 1), sleep, rewind the file handle, POST once more; any exception
inside the `try` yields `None`. -/
def send_to_discord (att1 att2 : Option HttpResponse) : SendOutcome :=
  match att1 with
  | none => ⟨1, [], 0, none⟩
  | some r1 =>
    if r1.status = 429 then
      match r1.jsonRetryAfter with
      | none => ⟨1, [], 0, none⟩
      | some ra =>
        let retry_after := ra.getD 1
        match att2 with
        | none => ⟨2, [retry_after], 1, none⟩
        | some r2 => ⟨2, [retry_after], 1, some r2⟩
    else ⟨1, [], 0, some r1⟩

/-! ## `process_episode` (lines 73-150)

An episode node is the triple of `find` results the function consults:
the title element (with optional text), the description element, and the
media element (with the optional value of `media_attr`). -/

structure Episode where
  titleEl : Option (Option (List Char))
  descrEl : Option (Option (List Char))
  mediaEl : Option (Option (List Char))
deriving DecidableEq, Repr

/-- Outcome of the streaming download (lines 112-117): the GET or
`raise_for_status` may fail before the output file is opened, a chunk
read may fail after it was created, or the download succeeds. -/
inductive DlResult
  | failBeforeWrite
  | failDuringWrite
  | ok
deriving DecidableEq, Repr

/-- Environment of one `process_episode` call: what the network, the
encoder and the file system would do at each step. `compressLeavesFile`
says whether a failed `audio.export` left a partial output file. -/
structure Oracle where
  download : DlResult
  compressOk : Bool
  compressLeavesFile : Bool
  sizeBytes : Nat
  att1 : Option HttpResponse
  att2 : Option HttpResponse
deriving DecidableEq, Repr

/-- Which of the two per-episode temp files exist on disk. -/
structure TempFiles where
  original : Bool
  compressed : Bool
deriving DecidableEq, Repr

inductive EpOutcome
  | skippedNoTitle
  | skippedNoMediaTag
  | skippedNoMediaAttr
  | unexpectedError
  | downloadError
  | compressError
  | tooLarge
  | uploadFailed
  | uploadOk
deriving DecidableEq, Repr

/-- The `try` body of `process_episode`, following the source order:
title element (line 79), description (85-91), media element and
attribute (93-101), filename derivation (103-105, which raises
`TypeError` inside `re.sub` when `title` is `None`), download (112-117),
compression (120-121), size gate (124-127), upload (130-138).
Returns the outcome, the number of webhook POST attempts, whether the
filename variables were assigned, and the files on disk when the body
ends (by `return` or by a caught exception). -/
def processBody (descriptionTag : Option (List Char)) (maxSizeMb : Nat)
    (ep : Episode) (orc : Oracle) : EpOutcome × Nat × Bool × TempFiles :=
  match ep.titleEl with
  | none => (.skippedNoTitle, 0, false, ⟨false, false⟩)
  | some titleText =>
    let _description := extract_description descriptionTag ep.descrEl
    match ep.mediaEl with
    | none => (.skippedNoMediaTag, 0, false, ⟨false, false⟩)
    | some mediaAttrVal =>
      match mediaAttrVal with
      | none => (.skippedNoMediaAttr, 0, false, ⟨false, false⟩)
      | some _mediaUrl =>
        match titleText with
        | none => (.unexpectedError, 0, false, ⟨false, false⟩)
        | some _title =>
          match orc.download with
          | .failBeforeWrite => (.downloadError, 0, true, ⟨false, false⟩)
          | .failDuringWrite => (.downloadError, 0, true, ⟨true, false⟩)
          | .ok =>
            if orc.compressOk then
              if sizeGateSkips orc.sizeBytes maxSizeMb then
                (.tooLarge, 0, true, ⟨true, true⟩)
              else
                let send := send_to_discord orc.att1 orc.att2
                match send.result with
                | some r =>
                  if r.status = 200 ∨ r.status = 204 then
                    (.uploadOk, send.attempts, true, ⟨true, true⟩)
                  else (.uploadFailed, send.attempts, true, ⟨true, true⟩)
                | none => (.uploadFailed, send.attempts, true, ⟨true, true⟩)
            else (.compressError, 0, true, ⟨true, orc.compressLeavesFile⟩)

/-- The `finally` block (lines 144-150): each file is removed when its
filename variable is set and the file exists. -/
def cleanupFiles (varsAssigned : Bool) (fs : TempFiles) : TempFiles :=
  ⟨if varsAssigned && fs.original then false else fs.original,
   if varsAssigned && fs.compressed then false else fs.compressed⟩

structure EpResult where
  outcome : EpOutcome
  uploadAttempts : Nat
  createdOriginal : Bool
  createdCompressed : Bool
  finalFiles : TempFiles
deriving DecidableEq, Repr

def process_episode (descriptionTag : Option (List Char)) (maxSizeMb : Nat)
    (ep : Episode) (orc : Oracle) : EpResult :=
  let r := processBody descriptionTag maxSizeMb ep orc
  { outcome := r.1
    uploadAttempts := r.2.1
    createdOriginal := r.2.2.2.original
    createdCompressed := r.2.2.2.compressed
    finalFiles := cleanupFiles r.2.2.1 r.2.2.2 }

/-! ## `main` (lines 152-189) -/

inductive RunResult
  | fetchError
  | parseError
  | noEpisodes
  | ok (results : List EpResult)
deriving DecidableEq, Repr

def processAll (descriptionTag : Option (List Char)) (maxSizeMb : Nat)
    (eps : List (Episode × Oracle)) : List EpResult :=
  eps.map (fun p => process_episode descriptionTag maxSizeMb p.1 p.2)

def totalUploads (rs : List EpResult) : Nat :=
  (rs.map (fun r => r.uploadAttempts)).sum

/-- The run: fetch (aborts on `RequestException`), parse (aborts on
`ParseError`), `findall` (empty match ends the run quietly), then the
slice-and-reverse selection and the per-episode loop, which catches all
per-episode errors inside `process_episode`. -/
def run (fetchOk parseOk : Bool) (number : Int)
    (descriptionTag : Option (List Char)) (maxSizeMb : Nat)
    (eps : List (Episode × Oracle)) : RunResult :=
  if fetchOk then
    if parseOk then
      if eps.isEmpty then .noEpisodes
      else .ok (processAll descriptionTag maxSizeMb (selectEpisodes number eps))
    else .parseError
  else .fetchError

/-! ## Concrete sample data used by witnesses and counterexamples -/

/-- A well-formed episode node: title text present, no description
element, media element carrying the URL attribute. -/
def sampleEpisode : Episode :=
  ⟨some (some ['E', 'p']), none, some (some ['u'])⟩

/-- An environment in which every step succeeds: download ok, encoder ok,
small compressed file, webhook answers 204 on the first POST. -/
def sampleOkOracle : Oracle :=
  ⟨.ok, true, false, 1024, some ⟨204, some none⟩, none⟩

/-- An environment in which the media download raises before the output
file is created. -/
def sampleFailOracle : Oracle :=
  ⟨.failBeforeWrite, true, false, 1024, some ⟨204, some none⟩, none⟩

/-- An environment producing a compressed file of exactly 25 MB
(25 * 1024 * 1024 = 26214400 bytes), the level-1 ceiling. -/
def boundaryOracle : Oracle :=
  ⟨.ok, true, false, 26214400, some ⟨204, some none⟩, none⟩

/-- An environment producing a compressed file one byte over the
level-1 ceiling. -/
def overOracle : Oracle :=
  ⟨.ok, true, false, 26214401, some ⟨204, some none⟩, none⟩

/-- A description text of 1001 characters whose first character is a
space: `.strip()` removes the space before the 1000-character check. -/
def longDescrText : List Char := ' ' :: List.replicate 1000 'a'

end PodPoster

namespace PodPoster

/-! ## Helper lemmas -/

theorem sanitize_filename_mem_clean {s : List Char} {c : Char}
    (hc : c ∈ sanitize_filename s) : c ∉ illegalChars ∧ c ≠ ' ' := by
  unfold sanitize_filename at hc
  have hc2 := List.take_subset _ _ hc
  rcases List.mem_map.1 hc2 with ⟨b, hb, rfl⟩
  have hbnot : b ∉ illegalChars := by simpa using (List.mem_filter.1 hb).2
  by_cases hsp : b = ' '
  · subst hsp
    refine ⟨by decide, by decide⟩
  · rw [if_neg hsp]
    exact ⟨hbnot, hsp⟩

theorem sanitize_filename_length_le (s : List Char) :
    (sanitize_filename s).length ≤ 230 := by
  unfold sanitize_filename
  simp [List.length_take]

theorem take_min_length {α : Type} (n : Nat) (xs : List α) :
    xs.take (min n xs.length) = xs.take n := by
  rcases le_total n xs.length with h | h
  · rw [Nat.min_eq_left h]
  · rw [Nat.min_eq_right h, List.take_length, List.take_of_length_le h]

theorem sizeGateSkips_small : sizeGateSkips 1024 25 = false := by
  simp only [sizeGateSkips, decide_eq_false_iff_not]
  norm_num

theorem sizeGateSkips_boundary25 : sizeGateSkips 26214400 25 = false := by
  simp only [sizeGateSkips, decide_eq_false_iff_not]
  norm_num

theorem sizeGateSkips_over25 : sizeGateSkips 26214401 25 = true := by
  simp only [sizeGateSkips, decide_eq_true_eq]
  norm_num

theorem process_sampleOk :
    process_episode none 25 sampleEpisode sampleOkOracle =
      ⟨.uploadOk, 1, true, true, ⟨false, false⟩⟩ := by
  simp [process_episode, processBody, sampleEpisode, sampleOkOracle,
    sizeGateSkips_small, send_to_discord, cleanupFiles]

theorem cleanupFiles_true_eq (fs : TempFiles) :
    cleanupFiles true fs = ⟨false, false⟩ := by
  rcases fs with ⟨a, b⟩
  cases a <;> cases b <;> rfl

theorem dropWhile_replicate_of_neg {p : Char → Bool} {a : Char}
    (h : p a = false) (n : Nat) :
    List.dropWhile p (List.replicate n a) = List.replicate n a := by
  cases n with
  | zero => rfl
  | succ k =>
    rw [List.replicate_succ, List.dropWhile_cons, h]
    simp [List.replicate_succ]

theorem pyStrip_longDescrText : pyStrip longDescrText = List.replicate 1000 'a' := by
  unfold pyStrip longDescrText
  rw [List.dropWhile_cons]
  have hsp : isPySpace ' ' = true := rfl
  have ha : isPySpace 'a' = false := rfl
  rw [hsp, if_pos rfl, dropWhile_replicate_of_neg ha, List.reverse_replicate,
    dropWhile_replicate_of_neg ha, List.reverse_replicate]

theorem longDescrText_length : longDescrText.length = 1001 := by
  unfold longDescrText
  rw [List.length_cons, List.length_replicate]

/-! ## Claims -/

/-- C1 counterexample: the claim says every `N ≤ 0` yields an empty
selection, but Python's `all_episodes[:-1]` over three matched episodes
keeps the first two of them, so two episodes are processed and two
webhook POSTs happen. -/
theorem selection_negative_counterexample :
    (-1 : Int) ≤ 0 ∧
    selectEpisodes (-1) (List.replicate 3 (sampleEpisode, sampleOkOracle)) ≠ [] ∧
    totalUploads (processAll none 25 (selectEpisodes (-1)
      (List.replicate 3 (sampleEpisode, sampleOkOracle)))) = 2 := by
  have hsel : selectEpisodes (-1) (List.replicate 3 (sampleEpisode, sampleOkOracle))
      = List.replicate 2 (sampleEpisode, sampleOkOracle) := by
    unfold selectEpisodes pySlice
    norm_num [List.take_replicate, List.reverse_replicate]
  refine ⟨by norm_num, ?_, ?_⟩
  · rw [hsel]
    simp
  · rw [hsel]
    simp [processAll, totalUploads, process_sampleOk]

/-- C1 (amended): for `N = 0`, and for negative `N` whose magnitude is at
least the number of matched episodes, the selection
`all_episodes[:N]` reversed is empty, so no episode is processed and no
webhook POST occurs. -/
theorem selection_nonpositive_empty (N : Int) (eps : List (Episode × Oracle))
    (dtag : Option (List Char)) (maxMb : Nat)
    (hN : N ≤ 0) (h : N = 0 ∨ (eps.length : Int) ≤ -N) :
    selectEpisodes N eps = [] ∧
    totalUploads (processAll dtag maxMb (selectEpisodes N eps)) = 0 := by
  have hsel : selectEpisodes N eps = [] := by
    unfold selectEpisodes pySlice
    by_cases h0 : 0 ≤ N
    · have hz : N = 0 := le_antisymm hN h0
      subst hz
      simp
    · rcases h with rfl | hle
      · exact absurd le_rfl h0
      · rw [if_neg h0]
        have hlen : eps.length - (-N).toNat = 0 := by omega
        rw [hlen]
        simp
  rw [hsel]
  exact ⟨rfl, rfl⟩

/-- C1 witness: instance of the amended claim at `N = 0` over a
single-episode feed. -/
theorem selection_nonpositive_empty_witness :
    selectEpisodes 0 [(sampleEpisode, sampleOkOracle)] = [] ∧
    totalUploads (processAll none 25
      (selectEpisodes 0 [(sampleEpisode, sampleOkOracle)])) = 0 :=
  selection_nonpositive_empty 0 [(sampleEpisode, sampleOkOracle)] none 25
    (by norm_num) (Or.inl rfl)

/-- C2: for `N ≥ 1` the processed sequence is the reverse of the first
`min(N, count)` matched nodes; when `N` exceeds the count the selection
has size `count`; and for `N` equal to the count the processed order is
the full reverse (oldest of the window first). -/
theorem selection_window_reversed {α : Type} (N : Int) (xs : List α) (h : 1 ≤ N) :
    selectEpisodes N xs = (xs.take (min N.toNat xs.length)).reverse ∧
    (selectEpisodes N xs).length = min N.toNat xs.length ∧
    ((xs.length : Int) < N → (selectEpisodes N xs).length = xs.length) ∧
    (N = (xs.length : Int) → selectEpisodes N xs = xs.reverse) := by
  have h0 : (0 : Int) ≤ N := by omega
  have hsel : selectEpisodes N xs = (xs.take N.toNat).reverse := by
    unfold selectEpisodes pySlice
    rw [if_pos h0]
  have hlen : (selectEpisodes N xs).length = min N.toNat xs.length := by
    rw [hsel, List.length_reverse, List.length_take]
  refine ⟨by rw [hsel, take_min_length], hlen, ?_, ?_⟩
  · intro hlt
    rw [hlen]
    have : xs.length ≤ N.toNat := by omega
    omega
  · intro he
    have : N.toNat = xs.length := by omega
    rw [hsel, this, List.take_length]

/-- C2 witness: `N = 2` over a three-element feed. -/
theorem selection_window_reversed_witness :
    selectEpisodes 2 ([10, 11, 12] : List Nat) =
      (([10, 11, 12] : List Nat).take (min (2 : Int).toNat 3)).reverse ∧
    (selectEpisodes 2 ([10, 11, 12] : List Nat)).length = min (2 : Int).toNat 3 ∧
    (((3 : Nat) : Int) < 2 →
      (selectEpisodes 2 ([10, 11, 12] : List Nat)).length = 3) ∧
    ((2 : Int) = ((3 : Nat) : Int) →
      selectEpisodes 2 ([10, 11, 12] : List Nat) = ([10, 11, 12] : List Nat).reverse) := by
  have h := selection_window_reversed 2 ([10, 11, 12] : List Nat) (by norm_num)
  simpa using h

/-- C3: the output of `sanitize_filename` contains none of the characters
`\ / * ? : " < > |`, contains no space, and has length at most 230. -/
theorem sanitize_filename_output_clean (s : List Char) :
    ((sanitize_filename s).all
      (fun c => !(illegalChars.contains c) && !(c == ' '))) = true ∧
    (sanitize_filename s).length ≤ 230 := by
  refine ⟨List.all_eq_true.mpr fun c hc => ?_, sanitize_filename_length_le s⟩
  simpa using sanitize_filename_mem_clean hc

/-- C4: the size gate compares strictly: a compressed file of exactly
`max_size_mb * 1024 * 1024` bytes passes the gate and is uploaded, a
file one byte larger is skipped before any POST, at every tier of
`level_to_size`. -/
theorem size_gate_boundary_strict :
    level_to_size 1 = some 25 ∧ level_to_size 2 = some 50 ∧ level_to_size 3 = some 100 ∧
    sizeGateSkips (25 * 1024 * 1024) 25 = false ∧
    sizeGateSkips (25 * 1024 * 1024 + 1) 25 = true ∧
    sizeGateSkips (50 * 1024 * 1024) 50 = false ∧
    sizeGateSkips (50 * 1024 * 1024 + 1) 50 = true ∧
    sizeGateSkips (100 * 1024 * 1024) 100 = false ∧
    sizeGateSkips (100 * 1024 * 1024 + 1) 100 = true ∧
    (process_episode none 25 sampleEpisode boundaryOracle).outcome = .uploadOk ∧
    (process_episode none 25 sampleEpisode boundaryOracle).uploadAttempts = 1 ∧
    (process_episode none 25 sampleEpisode overOracle).outcome = .tooLarge ∧
    (process_episode none 25 sampleEpisode overOracle).uploadAttempts = 0 := by
  refine ⟨rfl, rfl, rfl, ?_, ?_, ?_, ?_, ?_, ?_, ?_, ?_, ?_, ?_⟩
  · simp only [sizeGateSkips, decide_eq_false_iff_not]
    norm_num
  · simp only [sizeGateSkips, decide_eq_true_eq]
    norm_num
  · simp only [sizeGateSkips, decide_eq_false_iff_not]
    norm_num
  · simp only [sizeGateSkips, decide_eq_true_eq]
    norm_num
  · simp only [sizeGateSkips, decide_eq_false_iff_not]
    norm_num
  · simp only [sizeGateSkips, decide_eq_true_eq]
    norm_num
  · simp [process_episode, processBody, sampleEpisode, boundaryOracle,
      sizeGateSkips_boundary25, send_to_discord]
  · simp [process_episode, processBody, sampleEpisode, boundaryOracle,
      sizeGateSkips_boundary25, send_to_discord]
  · simp [process_episode, processBody, sampleEpisode, overOracle,
      sizeGateSkips_over25]
  · simp [process_episode, processBody, sampleEpisode, overOracle,
      sizeGateSkips_over25]

/-- C5: whatever the episode node and whatever the environment does at
each step, after `process_episode` returns neither the original nor the
compressed temp file exists: the `finally` block removes whichever of
them was created. -/
theorem cleanup_invariant (dtag : Option (List Char)) (maxMb : Nat)
    (ep : Episode) (orc : Oracle) :
    (process_episode dtag maxMb ep orc).finalFiles = ⟨false, false⟩ := by
  rcases ep with ⟨t, d, m⟩
  rcases orc with ⟨dl, cok, clf, sz, a1, a2⟩
  unfold process_episode processBody
  dsimp only
  rcases t with _ | (_ | ttl)
  · rfl
  · rcases m with _ | (_ | url)
    · rfl
    · rfl
    · rfl
  · rcases m with _ | (_ | url)
    · rfl
    · rfl
    · cases dl
      · rfl
      · rfl
      · cases cok
        · exact cleanupFiles_true_eq ⟨true, clf⟩
        · cases hs : sizeGateSkips sz maxMb
          · simp only [hs]
            generalize send_to_discord a1 a2 = so
            rcases so with ⟨att, sl, rews, res⟩
            rcases res with _ | r
            · rfl
            · dsimp only
              by_cases hst : r.status = 200 ∨ r.status = 204
              · rw [if_pos hst]
                rfl
              · rw [if_neg hst]
                rfl
          · simp only [hs]
            rfl

/-- C6: every call to the publisher makes at most two POST attempts; when
the first response is a 429 whose JSON body is read, the publisher sleeps
for `retry_after` (1 when the key is absent), rewinds the file once, and
the second attempt's outcome is returned as is. -/
theorem rate_limit_single_retry (att1 att2 : Option HttpResponse) :
    (send_to_discord att1 att2).attempts ≤ 2 ∧
    (∀ r1 ra, att1 = some r1 → r1.status = 429 → r1.jsonRetryAfter = some ra →
      send_to_discord att1 att2 = ⟨2, [ra.getD 1], 1, att2⟩) := by
  constructor
  · unfold send_to_discord
    rcases att1 with _ | r1
    · exact Nat.le_succ 1
    · dsimp only
      by_cases h429 : r1.status = 429
      · rw [if_pos h429]
        rcases hra : r1.jsonRetryAfter with _ | ra
        · exact Nat.le_succ 1
        · rcases att2 with _ | r2 <;> exact le_refl 2
      · rw [if_neg h429]
        exact Nat.le_succ 1
  · intro r1 ra h1 h429 hra
    subst h1
    unfold send_to_discord
    dsimp only
    rw [if_pos h429, hra]
    rcases att2 with _ | r2 <;> rfl

/-- C6 witness: a 429 carrying `retry_after = 3` followed by a 204 gives
two attempts, a 3-unit sleep, one rewind, and overall success. -/
theorem rate_limit_single_retry_witness :
    (send_to_discord (some ⟨429, some (some 3)⟩) (some ⟨204, some none⟩)).attempts ≤ 2 ∧
    send_to_discord (some ⟨429, some (some 3)⟩) (some ⟨204, some none⟩) =
      ⟨2, [3], 1, some ⟨204, some none⟩⟩ := by
  refine ⟨(rate_limit_single_retry _ _).1, ?_⟩
  exact (rate_limit_single_retry (some ⟨429, some (some 3)⟩) (some ⟨204, some none⟩)).2
    ⟨429, some (some 3)⟩ (some 3) rfl rfl rfl

/-- C7 counterexample: a description text of 1001 characters starting
with a space is longer than 1000 characters, yet the extracted
description is not the text's first 1000 characters with an ellipsis:
the code strips the text first, and the stripped text (1000 characters)
is not truncated at all. -/
theorem description_truncation_counterexample :
    longDescrText.length > 1000 ∧
    extract_description (some ['d']) (some (some longDescrText)) ≠
      longDescrText.take 1000 ++ ellipsisMark := by
  have hT : pyTruthy (some ['d']) = true := rfl
  have hE : longDescrText.isEmpty = false := rfl
  have hext : extract_description (some ['d']) (some (some longDescrText))
      = List.replicate 1000 'a' := by
    unfold extract_description
    rw [hT, if_pos rfl]
    dsimp only
    rw [hE, if_neg Bool.false_ne_true, pyStrip_longDescrText, List.length_replicate,
      if_neg (lt_irrefl 1000)]
  refine ⟨by rw [longDescrText_length]; norm_num, ?_⟩
  rw [hext]
  intro heq
  have hlen := congrArg List.length heq
  rw [List.length_replicate, List.length_append, List.length_take,
    longDescrText_length] at hlen
  have : ellipsisMark.length = 3 := rfl
  omega

/-- C7 (amended): with no configured tag the description is empty; with a
configured tag, an absent element, absent text or empty text yields the
empty string; otherwise the text is stripped of surrounding whitespace
and, when the stripped text exceeds 1000 characters, it is cut to its
first 1000 characters with `...` appended, else returned as stripped. -/
theorem description_extraction (dtag : Option (List Char)) (el : Option (Option (List Char))) :
    (extract_description none el = []) ∧
    (pyTruthy dtag = true → el = none → extract_description dtag el = []) ∧
    (pyTruthy dtag = true → el = some none → extract_description dtag el = []) ∧
    (pyTruthy dtag = true → ∀ t, el = some (some t) → t.isEmpty = true →
      extract_description dtag el = []) ∧
    (pyTruthy dtag = true → ∀ t, el = some (some t) → t.isEmpty = false →
      (pyStrip t).length > 1000 →
      extract_description dtag el = (pyStrip t).take 1000 ++ ellipsisMark) ∧
    (pyTruthy dtag = true → ∀ t, el = some (some t) → t.isEmpty = false →
      (pyStrip t).length ≤ 1000 →
      extract_description dtag el = pyStrip t) := by
  refine ⟨rfl, ?_, ?_, ?_, ?_, ?_⟩
  · intro hT hel
    subst hel
    unfold extract_description
    rw [hT, if_pos rfl]
    rfl
  · intro hT hel
    subst hel
    unfold extract_description
    rw [hT, if_pos rfl]
    rfl
  · intro hT t hel hemp
    subst hel
    unfold extract_description
    rw [hT, if_pos rfl]
    dsimp only
    rw [hemp, if_pos rfl]
    rfl
  · intro hT t hel hemp hlong
    subst hel
    unfold extract_description
    rw [hT, if_pos rfl]
    dsimp only
    rw [hemp, if_neg Bool.false_ne_true, if_pos hlong]
  · intro hT t hel hemp hshort
    subst hel
    unfold extract_description
    rw [hT, if_pos rfl]
    dsimp only
    rw [hemp, if_neg Bool.false_ne_true, if_neg (by omega : ¬(pyStrip t).length > 1000)]

/-- C7 witness: instances of the amended claim — no tag configured, a
configured tag with no matching element, and a short text returned
stripped. -/
theorem description_extraction_witness :
    extract_description none (some (some ['a'])) = [] ∧
    extract_description (some ['d']) none = [] ∧
    extract_description (some ['d']) (some (some [' ', 'a'])) = pyStrip [' ', 'a'] := by
  refine ⟨(description_extraction none (some (some ['a']))).1, ?_, ?_⟩
  · exact (description_extraction (some ['d']) none).2.1 rfl rfl
  · exact (description_extraction (some ['d']) (some (some [' ', 'a']))).2.2.2.2.2 rfl
      [' ', 'a'] rfl rfl (by decide)

/-- C8: a feed fetch error or XML parse error ends the whole run with no
episode processed; otherwise every selected episode is processed by
`process_episode` (which returns an outcome instead of raising), and the
result of each episode in the loop is independent of the failures of the
episodes around it. -/
theorem per_episode_error_isolation (fetchOk parseOk : Bool) (N : Int)
    (dtag : Option (List Char)) (maxMb : Nat) (eps : List (Episode × Oracle)) :
    (fetchOk = false → run fetchOk parseOk N dtag maxMb eps = .fetchError) ∧
    (fetchOk = true → parseOk = false → run fetchOk parseOk N dtag maxMb eps = .parseError) ∧
    (fetchOk = true → parseOk = true → eps ≠ [] →
      run fetchOk parseOk N dtag maxMb eps =
        .ok (processAll dtag maxMb (selectEpisodes N eps))) ∧
    (∀ pre p post, processAll dtag maxMb (pre ++ p :: post) =
      processAll dtag maxMb pre ++
        process_episode dtag maxMb p.1 p.2 :: processAll dtag maxMb post) := by
  refine ⟨?_, ?_, ?_, ?_⟩
  · intro h
    subst h
    rfl
  · intro h1 h2
    subst h1
    subst h2
    rfl
  · intro h1 h2 h3
    subst h1
    subst h2
    rcases eps with _ | ⟨p, ps⟩
    · exact absurd rfl h3
    · rfl
  · intro pre p post
    unfold processAll
    rw [List.map_append, List.map_cons]

/-- C8 witness: a two-episode feed whose first episode fails to download
still has both episodes processed, and the split of the processing list
around the failing episode. -/
theorem per_episode_error_isolation_witness :
    run true true 2 none 25 [(sampleEpisode, sampleFailOracle), (sampleEpisode, sampleOkOracle)] =
      .ok (processAll none 25 (selectEpisodes 2
        [(sampleEpisode, sampleFailOracle), (sampleEpisode, sampleOkOracle)])) ∧
    processAll none 25 ([] ++ (sampleEpisode, sampleFailOracle) :: [(sampleEpisode, sampleOkOracle)]) =
      processAll none 25 [] ++
        process_episode none 25 sampleEpisode sampleFailOracle ::
          processAll none 25 [(sampleEpisode, sampleOkOracle)] := by
  have h := per_episode_error_isolation true true 2 none 25
    [(sampleEpisode, sampleFailOracle), (sampleEpisode, sampleOkOracle)]
  exact ⟨h.2.2.1 rfl rfl (List.cons_ne_nil _ _), h.2.2.2 [] (sampleEpisode, sampleFailOracle)
    [(sampleEpisode, sampleOkOracle)]⟩

/-- C9: `sanitize_filename` is idempotent — sanitizing an already
sanitized name changes nothing. -/
theorem sanitize_filename_idempotent (s : List Char) :
    sanitize_filename (sanitize_filename s) = sanitize_filename s := by
  have h1 : (sanitize_filename s).filter (fun c => !(illegalChars.contains c))
      = sanitize_filename s := by
    rw [List.filter_eq_self]
    intro a ha
    simpa using (sanitize_filename_mem_clean ha).1
  have h2 : (sanitize_filename s).map (fun c => if c = ' ' then '_' else c)
      = sanitize_filename s := by
    have := List.map_congr_left (l := sanitize_filename s)
      (f := fun c => if c = ' ' then '_' else c) (g := id)
      (fun a ha => if_neg (sanitize_filename_mem_clean ha).2)
    simpa using this
  show (((sanitize_filename s).filter (fun c => !(illegalChars.contains c))).map
      (fun c => if c = ' ' then '_' else c)).take 230 = sanitize_filename s
  rw [h1, h2, List.take_of_length_le (sanitize_filename_length_le s)]

/-- C10: when the title element exists but carries no text, the episode
makes no POST, creates no file, ends with both temp files absent, and —
whenever the media URL is present so that filename derivation is reached
— the `TypeError` raised inside `sanitize_filename` is caught by the
generic episode-boundary handler. -/
theorem title_text_none_skips (dtag : Option (List Char)) (maxMb : Nat)
    (ep : Episode) (orc : Oracle) (h : ep.titleEl = some none) :
    (process_episode dtag maxMb ep orc).uploadAttempts = 0 ∧
    (process_episode dtag maxMb ep orc).createdOriginal = false ∧
    (process_episode dtag maxMb ep orc).createdCompressed = false ∧
    (process_episode dtag maxMb ep orc).finalFiles = ⟨false, false⟩ ∧
    (∀ url, ep.mediaEl = some (some url) →
      (process_episode dtag maxMb ep orc).outcome = .unexpectedError) := by
  rcases ep with ⟨t, d, m⟩
  dsimp only at h
  subst h
  unfold process_episode processBody
  dsimp only
  rcases m with _ | (_ | url)
  · exact ⟨rfl, rfl, rfl, rfl, fun u hu => by cases hu⟩
  · exact ⟨rfl, rfl, rfl, rfl, fun u hu => by cases hu⟩
  · exact ⟨rfl, rfl, rfl, rfl, fun u hu => rfl⟩

/-- C10 witness: a concrete episode with a text-less title element and a
present media URL, in an otherwise fully succeeding environment. -/
theorem title_text_none_skips_witness :
    (process_episode none 25 ⟨some none, none, some (some ['u'])⟩ sampleOkOracle).uploadAttempts = 0 ∧
    (process_episode none 25 ⟨some none, none, some (some ['u'])⟩ sampleOkOracle).createdOriginal = false ∧
    (process_episode none 25 ⟨some none, none, some (some ['u'])⟩ sampleOkOracle).createdCompressed = false ∧
    (process_episode none 25 ⟨some none, none, some (some ['u'])⟩ sampleOkOracle).finalFiles = ⟨false, false⟩ ∧
    (process_episode none 25 ⟨some none, none, some (some ['u'])⟩ sampleOkOracle).outcome = .unexpectedError := by
  have h := title_text_none_skips none 25 ⟨some none, none, some (some ['u'])⟩ sampleOkOracle rfl
  exact ⟨h.1, h.2.1, h.2.2.1, h.2.2.2.1, h.2.2.2.2 ['u'] rfl⟩

end PodPoster
